import Mathlib

/-!
Verification development for the `clihelper` command-line argument matcher
(`clihelper.py`, `type_check.py`).  Python strings are embedded as `List Char`,
Python lists as Lean lists, and the mutable scan state of
`Interface.scan_pattern` is threaded explicitly.  `exit(1)` after a
`display_error` call, uncaught Python exceptions (`SyntaxError`, `ValueError`,
`TypeError`, `IndexError`, `AssertionError`) and the `--help` exit are modelled
as fatal outcomes; `display_error` calls that do not exit are collected in a
`displayed` list.  Recursion of `scan_pattern` is modelled with explicit fuel,
mirroring the finite Python call stack.
-/

/-- Python strings are modelled as lists of characters. -/
abbrev Str := List Char

/-- Coerce a Lean string literal into the `Str` embedding type. -/
def str (s : String) : Str := s.data

/-- Python `s.split(sep)` for a single-character separator: keeps empty
pieces and returns `[""]` on the empty string. -/
def pySplit (sep : Char) : Str → List Str
  | [] => [[]]
  | a :: t =>
    match pySplit sep t with
    | [] => [[]]
    | p :: ps => if a = sep then [] :: p :: ps else (a :: p) :: ps

/-- Python `s.strip(c)`: remove every leading and trailing occurrence of `c`. -/
def pyStrip (c : Char) (s : Str) : Str :=
  ((s.dropWhile (· = c)).reverse.dropWhile (· = c)).reverse

/-- Python slice `l[a:b]` (with clamping). -/
def seg (l : List α) (a b : Nat) : List α := (l.take b).drop a

/-- Python `" ".join(parts)`. -/
def joinSpace (parts : List Str) : Str := List.intercalate [' '] parts

/-- Python `s.startswith(c)` for a one-character prefix; false on the
empty string. -/
def startsWith (c : Char) (s : Str) : Bool := s.head? = some c

/-!  Embedding of `type_check.py` (the identical functions also appear in
`cores/checker.py`).  Python `str.isdigit` is modelled on the ASCII
digits `0-9`, which is the alphabet the checks are designed for. -/

/-- Python `character.isdigit()` restricted to ASCII decimal digits. -/
def pyIsDigit (c : Char) : Bool := c.isDigit

/-- Embedding of `check_int` from `type_check.py`: every character is a
decimal digit. -/
def check_int (value : Str) : Bool := value.all pyIsDigit

/-- Embedding of `check_float` from `type_check.py`: every character is a
digit or a dot, and a dot occurs somewhere in the value. -/
def check_float (value : Str) : Bool :=
  (value.all fun c => pyIsDigit c || c = '.') && value.contains '.'

/-- Characters accepted by `check_hex`: `chr(48)`..`chr(57)` and
`chr(65)`..`chr(70)`, that is `0-9` and `A-F`. -/
def hexChars : Str := str "0123456789ABCDEF"

/-- Embedding of `check_hex` from `type_check.py`: every character,
uppercased, is a hexadecimal digit. -/
def check_hex (value : Str) : Bool :=
  value.all fun c => hexChars.contains c.toUpper

/-- Characters accepted by `check_oct`: `chr(48)`..`chr(55)`, that is `0-7`. -/
def octChars : Str := str "01234567"

/-- Embedding of `check_oct` from `type_check.py`. -/
def check_oct (value : Str) : Bool := value.all fun c => octChars.contains c

/-- Embedding of `check_bin` from `type_check.py`. -/
def check_bin (value : Str) : Bool := value.all fun c => c = '0' || c = '1'

/-- Embedding of `type_check.type_dict`: the registry mapping type tags to
check functions. -/
def type_dict (tag : Str) : Option (Str → Bool) :=
  if tag = str "<INT>" then some check_int
  else if tag = str "<FLOAT>" then some check_float
  else if tag = str "<HEX>" then some check_hex
  else if tag = str "<OCT>" then some check_oct
  else if tag = str "<BIN>" then some check_bin
  else none

/-!  Data model for the scan of `Interface.scan_pattern`. -/

/-- Values stored in `argument_results`: either a matched token text, or a
Python boolean (`True` for present boolean flags, `False` for an empty
default). -/
inductive Value where
  | vstr (s : Str)
  | vbool (b : Bool)
deriving DecidableEq, Repr

/-- Fatal outcomes of the Python code: `display_error` followed by
`exit(1)`, the `--help` `exit(0)`, a raised `SyntaxError`, and the
uncaught exceptions the code can hit (`ValueError` from `list.index` or
`list.remove`, `TypeError` from iterating `None`, `IndexError` from bad
indexing, `AssertionError` from the `assert` in `parse`). -/
inductive PyFail where
  | exitError (msg : Str)
  | helpExit
  | modeError (msg : Str)
  | valueError
  | typeErr
  | indexErr
  | assertFail
deriving DecidableEq, Repr

/-- One entry of `parameter_information`, keeping the fields `scan_pattern`
reads: `entry[0]` (the flag or long name) and `entry[2]` (the default
value). -/
structure ParamInfo where
  name : Str
  default : Str
deriving DecidableEq, Repr

/-- Per-parse configuration: the `assert_typing` switch and the parameter
registry. -/
structure Config where
  assertTyping : Bool
  parameterInformation : List ParamInfo
deriving DecidableEq, Repr

/-- The mutable state `scan_pattern` works on: `self.given_arguments`,
`self.argument_results`, plus the list of messages printed through
`display_error` without a following `exit`. -/
structure ScanState where
  givenArguments : List Str
  argumentResults : List (Str × Value)
  displayed : List Str
deriving DecidableEq, Repr

/-- Outcome of one `scan_pattern` call: a returned response (Python `None`
or a list of flag names) together with the updated state, a fatal
outcome, or fuel exhaustion (modelling a Python stack overflow). -/
inductive ScanRes where
  | ok (resp : Option (List Str)) (st : ScanState)
  | fatal (e : PyFail) (st : ScanState)
  | nofuel
deriving DecidableEq, Repr

/-- Outcome of evaluating a list of sub-patterns in order. -/
inductive ChildrenRes where
  | ok (rs : List (Option (List Str))) (st : ScanState)
  | fatal (e : PyFail) (st : ScanState)
  | nofuel
deriving DecidableEq, Repr

/-!  Embedding of `Interface.scan_pattern` (clihelper.py lines 181-389). -/

/-- Guard selecting the base case of `scan_pattern`:
`(len(parts) == 1 or (len(parts) == 2 and parts[1][0] == "<")) and
all("|" not in part for part in parts)`, including the `IndexError`
Python raises when `parts[1]` is empty. -/
def baseGuard : List Str → Except PyFail Bool
  | [p] => .ok (decide ('|' ∉ p))
  | [_, []] => .error .indexErr
  | [p, c :: q] => .ok (decide (c = '<') && decide ('|' ∉ p) && decide ('|' ∉ c :: q))
  | _ => .ok false

/-- Closing bracket for a group opener. -/
def closeOf (mode : Char) : Char := if mode = '\x7b' then '\x7d' else ']'

/-- Inherited wrapping of a sub-pattern: bracket it with the parent mode
unless it already starts with a bracket. -/
def wrap (mode : Char) (s : Str) : Str :=
  if s.head? = some '\x7b' ∨ s.head? = some '[' then s
  else mode :: s ++ [closeOf mode]

/-- Python truthiness of a `scan_pattern` response: `None` and the empty
list are falsy. -/
def truthy : Option (List Str) → Bool
  | none => false
  | some l => !l.isEmpty

/-- The `match_count` computation:
`[1 if response else 0 for response in responses].count(1)`. -/
def matchCount (rs : List (Option (List Str))) : Nat :=
  (rs.map fun r => if truthy r then (1 : Nat) else 0).count 1

/-- The response-flattening loop `for response in responses: for flag in
response`, which raises `TypeError` when it reaches a `None` response. -/
def collectFlags : List (Option (List Str)) → Except PyFail (List Str)
  | [] => .ok []
  | none :: _ => .error .typeErr
  | some l :: rest => (collectFlags rest).map (l ++ ·)

/-- Base case of `scan_pattern` (lines 195-241): a single flag, a flag
with a value placeholder, or a positional placeholder. -/
def baseCase (mode : Char) (parts : List Str) (depth : Nat) (cfg : Config)
    (st : ScanState) : ScanRes :=
  match parts with
  | [] => .fatal .indexErr st
  | p0 :: rest =>
    if p0 ∈ st.givenArguments then
      match rest with
      | [] =>
        .ok (some [p0])
          { st with givenArguments := st.givenArguments.erase p0,
                    argumentResults := st.argumentResults ++ [(p0, .vbool true)] }
      | [p1] =>
        let vi := st.givenArguments.findIdx (· = p0) + 1
        match st.givenArguments.get? vi with
        | none => .fatal (.exitError (str "Missing argument for flag " ++ p0)) st
        | some v =>
          let given1 := st.givenArguments.eraseIdx vi
          if startsWith '-' v then
            .fatal (.exitError (str "Missing argument for flag " ++ p0))
              { st with givenArguments := given1 }
          else
            match type_dict p1 with
            | some f =>
              if cfg.assertTyping ∧ f v = false then
                .fatal (.exitError (str "Incorrect type for " ++ p0))
                  { st with givenArguments := given1 }
              else
                .ok (some [p0])
                  { st with givenArguments := given1.erase p0,
                            argumentResults := st.argumentResults ++ [(p0, .vstr v)] }
            | none =>
              .ok (some [p0])
                { st with givenArguments := given1.erase p0,
                          argumentResults := st.argumentResults ++ [(p0, .vstr v)] }
      | _ => .fatal .indexErr st
    else if startsWith '<' p0 ∧ (depth = 1 ∨ (depth = 0 ∧ parts.length = 1)) then
      match st.givenArguments.getLast? with
      | none =>
        .ok none
          { st with displayed := st.displayed ++ [str "Missing argument " ++ p0] }
      | some v =>
        if startsWith '-' v then
          .ok none
            { st with givenArguments := st.givenArguments.dropLast,
                      displayed := st.displayed ++ [str "Missing argument " ++ p0] }
        else
          .ok none { st with givenArguments := st.givenArguments.dropLast }
    else
      match cfg.parameterInformation.find? (fun e => e.name = p0) with
      | none => .fatal .valueError st
      | some e =>
        let v : Value := if e.default.isEmpty then .vbool false else .vstr e.default
        .ok (some (if mode = '[' then [str "-*"] else []))
          { st with argumentResults := st.argumentResults ++ [(p0, v)] }

/-- Number of consecutive skippable characters (`" "`, `"}"`, `"]"`) at the
front of a string; drives the base-pointer cycling loops. -/
def skipCount (l : Str) : Nat :=
  (l.takeWhile fun c => c = ' ' ∨ c = '\x7d' ∨ c = ']').length

/-- Pointer cycling `while pattern[base] in (" ", "}", "]")` used before an
opening bracket (the source gives it no explicit bound; it always stops
at the opening bracket, and the model stops at the end of the string). -/
def cycleOpen (p : Str) (b : Nat) : Nat := b + skipCount (p.drop b)

/-- Pointer cycling `while pattern[base] in (" ", "}", "]") and base < stop`. -/
def cycleBounded (p : Str) (b stop : Nat) : Nat :=
  b + min (skipCount (p.drop b)) (stop - b)

/-- Final pointer cycling `while base <= current and pattern[base] in ...`. -/
def cycleFinal (p : Str) (b stop : Nat) : Nat :=
  b + min (skipCount (p.drop b)) (stop + 1 - b)

/-- State of the element-scanning loop of the recursion case
(lines 244-279): collected parts, the active closing bracket (`""` is
`none`), and the base pointer. -/
structure TokSt where
  parts : List Str
  mc : Option Char
  base : Nat
deriving Repr

/-- One iteration of the element-scanning loop, at index `cur`. -/
def tokStep (p : Str) (st : TokSt) (cur : Nat) : TokSt :=
  let c := p.getD cur ' '
  if (c = '\x7b' ∨ c = '[') ∧ st.mc = none then
    let b := cycleOpen p st.base
    let piece := seg p b cur
    { parts := st.parts ++ (if piece.isEmpty then [] else [piece]),
      mc := some (closeOf c), base := cur }
  else if st.mc = some c then
    let piece := seg p st.base (cur + 1)
    { parts := st.parts ++ (if piece.isEmpty then [] else [piece]),
      mc := none, base := cur }
  else if st.mc = none ∧ c = ' ' ∧ cur ≠ p.length - 1 ∧ p.getD (cur + 1) '?' ≠ '<' then
    let b := cycleBounded p st.base cur
    let piece := seg p b cur
    { parts := st.parts ++ (if piece.isEmpty then [] else [piece]),
      mc := st.mc, base := cur }
  else st

/-- Element tokenization of the recursion case: the index loop followed by
the final base-pointer cycle and the final part (lines 244-285). -/
def tokenizeElems (p : Str) : List Str :=
  let st := (List.range p.length).foldl (tokStep p) ⟨[], none, 0⟩
  let b := cycleFinal p st.base (p.length - 1)
  st.parts ++ (if (p.drop b).isEmpty then [] else [p.drop b])

/-- State of the pipe-detection loop (lines 287-311). -/
structure PipeSt where
  base : Nat
  toPipe : Str
  acc : List Str
deriving Repr

/-- One iteration of the pipe-detection loop, at element index `cur`. -/
def pipeStep (parts : List Str) (st : PipeSt) (cur : Nat) : PipeSt :=
  let e := parts.getD cur []
  if '|' ∈ e ∧ e.head? ≠ some '\x7b' ∧ e.head? ≠ some '[' then
    let sp := pySplit '|' e
    (List.range sp.length).foldl
      (fun s pp =>
        if pp = 0 then
          { base := cur + 1, toPipe := [],
            acc := s.acc ++
              [pyStrip ' ' (joinSpace ([s.toPipe] ++ seg parts s.base cur ++ [sp.getD 0 []]))] }
        else if pp = sp.length - 1 then { s with toPipe := sp.getD pp [] }
        else if (sp.getD pp []).isEmpty then s
        else { s with acc := s.acc ++ [sp.getD pp []] })
      st
  else st

/-- Full pipe splitting: the loop, the final append, and the removal of all
blank parts (lines 287-314). -/
def pipePartsOf (parts : List Str) : List Str :=
  let st := (List.range parts.length).foldl (pipeStep parts) ⟨0, [], []⟩
  let all := st.acc ++ [pyStrip ' ' (joinSpace ([st.toPipe] ++ parts.drop st.base))]
  all.filter (fun s => !s.isEmpty)

/-- Post-processing of an alternation (lines 316-346): cardinality checks
on the branch responses, then flattening of all branch flags. -/
def pipeFinish (mode : Char) (inner : Str) (rs : List (Option (List Str)))
    (st : ScanState) : ScanRes :=
  if 2 ≤ matchCount rs then
    .fatal (.exitError (str "Only one part of " ++ inner ++ str " can be filled")) st
  else if mode = '\x7b' ∧ matchCount rs ≠ 1 then
    .fatal (.exitError (str "There must be exactly one part of " ++ inner ++ str " filled")) st
  else
    match collectFlags rs with
    | .error e => .fatal e st
    | .ok fs => .ok (some fs) st

/-- Post-processing of a group without alternation (lines 348-389):
all-or-nothing check for required groups, flattening, and the `-*`
marker for an unsatisfied optional group. -/
def groupFinish (mode : Char) (inner : Str) (parent : Str)
    (rs : List (Option (List Str))) (st : ScanState) : ScanRes :=
  if mode = '\x7b' then
    if 0 < matchCount rs ∧ matchCount rs < rs.length then
      .fatal (.exitError (str "All flags are required in " ++ inner)) st
    else if matchCount rs = 0 ∧ parent = [] then
      .fatal (.exitError (str "All flags are required in " ++ inner)) st
    else
      match collectFlags rs with
      | .error e => .fatal e st
      | .ok fs => .ok (some fs) st
  else
    match collectFlags rs with
    | .error e => .fatal e st
    | .ok fs => .ok (some (if fs.isEmpty then [str "-*"] else fs)) st

/-- Evaluation of a list of sub-patterns in order, threading the scan
state and propagating fatal outcomes. -/
def runChildren (f : Str → ScanState → ScanRes) : List Str → ScanState → ChildrenRes
  | [], st => .ok [] st
  | q :: rest, st =>
    match f q st with
    | .nofuel => .nofuel
    | .fatal e st1 => .fatal e st1
    | .ok r st1 =>
      match runChildren f rest st1 with
      | .nofuel => .nofuel
      | .fatal e st2 => .fatal e st2
      | .ok rs st2 => .ok (r :: rs) st2

/-- One step of `scan_pattern`, with `rec` standing for the recursive
calls on sub-patterns. -/
def scanStep (rec : Str → Nat → Str → ScanState → ScanRes) (p : Str)
    (depth : Nat) (parent : Str) (cfg : Config) (st : ScanState) : ScanRes :=
  match p.head? with
  | none => .fatal .indexErr st
  | some mode =>
    let inner := (p.drop 1).dropLast
    let parts := pySplit ' ' inner
    if mode ≠ '\x7b' ∧ mode ≠ '[' then
      .fatal (.modeError (str "Mode for pattern " ++ inner ++ str " is not valid")) st
    else
      match baseGuard parts with
      | .error e => .fatal e st
      | .ok true => baseCase mode parts depth cfg st
      | .ok false =>
        let elems := tokenizeElems inner
        let pipes := pipePartsOf elems
        if 1 < pipes.length then
          match runChildren (fun q s => rec q (depth + 1) (str "|") s)
              (pipes.map (wrap mode)) st with
          | .nofuel => .nofuel
          | .fatal e st1 => .fatal e st1
          | .ok rs st1 => pipeFinish mode inner rs st1
        else
          let childParent := if mode = '\x7b' then parent else str "["
          match runChildren (fun q s => rec q (depth + 1) childParent s)
              (elems.map (wrap mode)) st with
          | .nofuel => .nofuel
          | .fatal e st1 => .fatal e st1
          | .ok rs st1 => groupFinish mode inner parent rs st1

/-- Embedding of `Interface.scan_pattern`, with fuel bounding the
recursion depth (the Python call stack). -/
def scan_pattern (cfg : Config) : Nat → Str → Nat → Str → ScanState → ScanRes
  | 0, _, _, _, _ => .nofuel
  | fuel + 1, p, depth, parent, st =>
    scanStep (fun q d par s => scan_pattern cfg fuel q d par s) p depth parent cfg st

/-!  Embedding of `Interface.parse` (clihelper.py lines 393-443). -/

/-- Python prefix test between two strings. -/
def prefixOf : Str → Str → Bool
  | [], _ => true
  | _ :: _, [] => false
  | a :: n, b :: h => a = b && prefixOf n h

/-- Python substring membership `needle in hay` for strings. -/
def pySubstring (n : Str) : Str → Bool
  | [] => n.isEmpty
  | b :: t => prefixOf n (b :: t) || pySubstring n t

/-- The sub-command pattern tree: a Python dict whose values are either
leaf pattern strings or nested dicts. -/
inductive PTree where
  | leaf (pattern : Str)
  | node (entries : List (Str × PTree))

/-- Persistent state of an `Interface` object between `parse` calls. -/
structure InterfaceState where
  patternTree : PTree
  parameterInformation : List ParamInfo
  internalCommandPath : List Str
  argumentResults : List (Str × Value)
  argumentScan : List Str
  givenArguments : List Str

/-- Outcome of the command-dispatch loop of `parse` (lines 406-423):
either a leaf pattern was found at argument index `idx` with the updated
command path, or the loop ran out of arguments without reaching a leaf,
or the loop stopped the program. -/
inductive WalkRes where
  | found (pattern : Str) (idx : Nat) (path : List Str)
  | exhausted (path : List Str)
  | stop (e : PyFail)

/-- The command-dispatch loop: walk the pattern tree along the argument
list, appending each consumed command to the command path.  A `--help`
token exits; a token that is not a key of the current dict exits with
"Unknown command"; reaching a leaf breaks out of the loop.  A leaf met
as the current branch mirrors Python substring membership followed by a
`TypeError` on string indexing. -/
def parseWalk : PTree → List Str → Nat → List Str → WalkRes
  | _, [], _, path => .exhausted path
  | t, a :: rest, i, path =>
    if a = str "--help" then .stop .helpExit
    else
      match t with
      | .leaf s =>
        if pySubstring a s then .stop .typeErr
        else .stop (.exitError (str "Unknown command: " ++ a))
      | .node es =>
        match es.find? (fun e => e.1 = a) with
        | none => .stop (.exitError (str "Unknown command: " ++ a))
        | some e =>
          match e.2 with
          | .leaf pat => .found pat i (path ++ [a])
          | .node es1 => parseWalk (.node es1) rest (i + 1) (path ++ [a])

/-- The removal loop `for command in self.internal_command_path:
self.given_arguments.remove(command)`, raising `ValueError` when a
command is absent. -/
def removeAll (given : List Str) : List Str → Except PyFail (List Str)
  | [] => .ok given
  | c :: rest =>
    if c ∈ given then removeAll (given.erase c) rest
    else .error .valueError

/-- The dict comprehension `{pair[0]: pair[1] for pair in results}`:
first-occurrence key order, later values overwrite earlier ones. -/
def toDict (l : List (Str × Value)) : List (Str × Value) :=
  l.foldl
    (fun acc p =>
      if acc.any (fun q => q.1 = p.1) then
        acc.map (fun q => if q.1 = p.1 then (q.1, p.2) else q)
      else acc ++ [p])
    []

/-- Outcome of one `parse` call: the result mapping together with the new
interface state and the messages displayed without exiting, or a fatal
outcome, or fuel exhaustion inside `scan_pattern`. -/
inductive ParseRes where
  | ok (result : List (Str × Value)) (iface : InterfaceState) (displayed : List Str)
  | fatal (e : PyFail)
  | nofuel

/-- Embedding of `Interface.parse`: command dispatch, command-path removal,
the top-level `scan_pattern` call on the brace-wrapped leaf pattern, and
leftover-token reporting. -/
def parse (fuel : Nat) (iface : InterfaceState) (arguments : List Str)
    (assertTyping : Bool) : ParseRes :=
  match parseWalk iface.patternTree arguments 0 iface.internalCommandPath with
  | .stop e => .fatal e
  | .exhausted path =>
    match removeAll arguments path with
    | .error e => .fatal e
    | .ok _ => .fatal .assertFail
  | .found pat idx path =>
    match removeAll arguments path with
    | .error e => .fatal e
    | .ok given1 =>
      let argScan := given1.drop (idx + 1)
      let cfg : Config := ⟨assertTyping, iface.parameterInformation⟩
      match scan_pattern cfg fuel ('\x7b' :: pat ++ ['\x7d']) 0 [] ⟨given1, [], []⟩ with
      | .nofuel => .nofuel
      | .fatal e _ => .fatal e
      | .ok _ sSt =>
        let iface1 : InterfaceState :=
          { iface with internalCommandPath := path,
                       argumentResults := sSt.argumentResults,
                       argumentScan := argScan,
                       givenArguments := sSt.givenArguments }
        match sSt.givenArguments with
        | [] => .ok (toDict sSt.argumentResults) iface1 sSt.displayed
        | g0 :: _ =>
          if (str "--help") ∈ sSt.givenArguments then .fatal .helpExit
          else
            .ok (toDict sSt.argumentResults) iface1
              (sSt.displayed ++ [str "Unrecognised flag " ++ g0])

/-!  Concrete fixtures used by the claim theorems. -/

/-- A scan state holding the given argument tokens and empty accumulators. -/
def stOf (args : List String) : ScanState := ⟨args.map str, [], []⟩

/-- A registry with empty defaults for the flags used in the examples. -/
def cfgFlags : Config :=
  ⟨true, [⟨str "--in", []⟩, ⟨str "--num", []⟩, ⟨str "-a", []⟩, ⟨str "-b", []⟩]⟩

/-- The self-reproducing pattern `{-a <A> <B>}`: its sole tokenized element
is the whole inner pattern, so each recursion level re-scans the same
pattern string. -/
def selfLoopPattern : Str := str "\x7b-a <A> <B>\x7d"

/-- Sub-command tree with a single command `run` mapping to the leaf
pattern `-a`. -/
def c7Tree : PTree := .node [(str "run", .leaf (str "-a"))]

/-- A freshly constructed interface over `c7Tree`. -/
def c7Init : InterfaceState := ⟨c7Tree, [⟨str "-a", []⟩], [], [], [], []⟩

/-- The interface state left behind by the first successful
`parse` of `["run", "-a"]` on `c7Init`. -/
def c7St1 : InterfaceState :=
  { c7Init with internalCommandPath := [str "run"],
                argumentResults := [(str "-a", .vbool true)] }

/-- Interface over a single command whose leaf pattern is one positional
placeholder. -/
def c9Iface : InterfaceState :=
  ⟨.node [(str "cmd", .leaf (str "<A>"))], [], [], [], [], []⟩

/-!  Helper lemmas. -/

/-- Unfolding equation for `scan_pattern` at positive fuel. -/
theorem scan_pattern_succ (cfg : Config) (fuel : Nat) (p : Str) (depth : Nat)
    (parent : Str) (st : ScanState) :
    scan_pattern cfg (fuel + 1) p depth parent st =
      scanStep (fun q d par s => scan_pattern cfg fuel q d par s) p depth parent cfg st := rfl

/-- Python split leaves a string without the separator in one piece. -/
theorem pySplit_single (sep : Char) (s : Str) (h : sep ∉ s) : pySplit sep s = [s] := by
  induction s with
  | nil => rfl
  | cons a t ih =>
    have ha : a ≠ sep := fun e => h (e ▸ List.mem_cons_self a t)
    have ht : sep ∉ t := fun m => h (List.mem_cons_of_mem a m)
    simp [pySplit, ih ht, ha]

/-- Flattening responses that contain no `None` collects every branch's
flags in order. -/
theorem collectFlags_ok (rs : List (Option (List Str))) (h : none ∉ rs) :
    collectFlags rs = .ok (rs.map (fun r => r.getD [])).flatten := by
  induction rs with
  | nil => rfl
  | cons r t ih =>
    match r with
    | none => exact absurd (List.mem_cons_self none t) (fun m => h m)
    | some l =>
      have ht : none ∉ t := fun m => h (List.mem_cons_of_mem _ m)
      simp [collectFlags, ih ht, Except.map]

/-- Evaluating `scan_pattern` on a bracketed single element reaches the
base case. -/
theorem scan_single (cfg : Config) (fuel : Nat) (mode : Char) (w : Str)
    (depth : Nat) (parent : Str) (st : ScanState)
    (hmode : mode = '\x7b' ∨ mode = '[') (hsp : ' ' ∉ w) (hpipe : '|' ∉ w) :
    scan_pattern cfg (fuel + 1) (mode :: w ++ [closeOf mode]) depth parent st =
      baseCase mode [w] depth cfg st := by
  rw [scan_pattern_succ]
  unfold scanStep
  have hguard : baseGuard [w] = .ok true := by
    show Except.ok (decide ('|' ∉ w)) = Except.ok true
    simp [hpipe]
  have hm : ¬(mode ≠ '\x7b' ∧ mode ≠ '[') := by
    rcases hmode with h | h <;> simp [h]
  simp only [List.cons_append, List.head?_cons, List.drop_succ_cons, List.drop_zero,
    List.dropLast_concat, pySplit_single ' ' w hsp, hguard, if_neg hm]


/-!  Claim theorems. -/

set_option maxRecDepth 40000

/-- Claim C10: on the empty string, `check_int`, `check_hex`, `check_oct`
and `check_bin` return true (their character-wise conditions hold
vacuously) while `check_float` returns false (it additionally requires a
dot to be present). -/
theorem c10_empty_string_checks :
    check_int [] = true ∧ check_hex [] = true ∧ check_oct [] = true ∧
      check_bin [] = true ∧ check_float [] = false := by decide

/-- Claim C6, counterexample: `check_float` accepts `"1.2.3"`, a string
with two dots, so the predicate is not "exactly one dot present" as the
claim states. -/
theorem c6_counterexample :
    check_float (str "1.2.3") = true ∧ (str "1.2.3").count '.' = 2 := by decide

/-- Claim C6, amended: `check_float` returns true iff every character is a
decimal digit or a dot and at least one dot is present; in particular an
all-digit integer string is rejected, but strings with several dots are
accepted. -/
theorem c6_float_characterization (v : Str) :
    check_float v = true ↔ ((∀ c ∈ v, pyIsDigit c = true ∨ c = '.') ∧ '.' ∈ v) := by
  constructor
  · intro h
    have h1 := (Bool.and_eq_true _ _).mp h
    refine ⟨?_, ?_⟩
    · intro c hc
      have := (List.all_eq_true.mp h1.1) c hc
      rcases Bool.or_eq_true _ _ |>.mp this with h2 | h2
      · exact Or.inl h2
      · exact Or.inr (by simpa using h2)
    · simpa using h1.2
  · intro ⟨h1, h2⟩
    refine (Bool.and_eq_true _ _).mpr ⟨List.all_eq_true.mpr ?_, by simpa using h2⟩
    intro c hc
    rcases h1 c hc with h3 | h3
    · exact Bool.or_eq_true _ _ |>.mpr (Or.inl h3)
    · exact Bool.or_eq_true _ _ |>.mpr (Or.inr (by simpa using h3))

/-- Claim C3, counterexample: scanning the leaf pattern `{--in <PATH>}`
against the empty token list reports no error at all (no fatal outcome
and no displayed message naming `--in`): the flag is silently filled
with its default and the scan returns successfully. -/
theorem c3_counterexample :
    scan_pattern ⟨true, [⟨str "--in", []⟩]⟩ 1 (str "\x7b--in <PATH>\x7d") 0 [] ⟨[], [], []⟩ =
      .ok (some []) ⟨[], [(str "--in", .vbool false)], []⟩ := by decide

/-- Claim C3, amended: matching `{--in <PATH>}` against the empty token
list reports no missing-required error; instead `--in` is filled with
its registry default (`False` when the default is empty) and the scan
returns an empty flag list. -/
theorem c3_default_fill (d : Str) :
    scan_pattern ⟨true, [⟨str "--in", d⟩]⟩ 1 (str "\x7b--in <PATH>\x7d") 0 [] ⟨[], [], []⟩ =
      .ok (some []) ⟨[], [(str "--in", if d.isEmpty then .vbool false else .vstr d)], []⟩ := rfl

/-- Claim C2, counterexample: the match-time user error "missing argument
for flag" is not collected; it aborts the scan immediately through
`display_error` plus `exit(1)`. -/
theorem c2_counterexample :
    scan_pattern cfgFlags 1 (str "\x7b--num <INT>\x7d") 0 [] (stOf ["--num"]) =
      .fatal (.exitError (str "Missing argument for flag --num")) (stOf ["--num"]) := by
  decide

/-- Claim C2, amended: most match-time user errors abort the scan
immediately with a message and `exit(1)` (missing flag argument, type
mismatch, alternation cardinality, all-flags-required); only the missing
positional argument and the trailing unrecognised token are reported
without aborting; there is no accumulated error structure, and a
malformed pattern mode raises `SyntaxError`. -/
theorem c2_error_behaviour :
    scan_pattern cfgFlags 1 (str "\x7b--num <INT>\x7d") 0 [] (stOf ["--num"]) =
      .fatal (.exitError (str "Missing argument for flag --num")) (stOf ["--num"]) ∧
    scan_pattern cfgFlags 1 (str "\x7b--num <INT>\x7d") 0 [] (stOf ["--num", "x2"]) =
      .fatal (.exitError (str "Incorrect type for --num")) ⟨[str "--num"], [], []⟩ ∧
    scan_pattern cfgFlags 3 (str "\x7b-a|-b\x7d") 0 [] (stOf ["-a", "-b"]) =
      .fatal (.exitError (str "Only one part of -a|-b can be filled"))
        ⟨[], [(str "-a", .vbool true), (str "-b", .vbool true)], []⟩ ∧
    scan_pattern cfgFlags 3 (str "\x7b-a -b\x7d") 0 [] (stOf ["-a"]) =
      .fatal (.exitError (str "All flags are required in -a -b"))
        ⟨[], [(str "-a", .vbool true), (str "-b", .vbool false)], []⟩ ∧
    scan_pattern cfgFlags 1 (str "\x7b<A>\x7d") 0 [] (stOf []) =
      .ok none ⟨[], [], [str "Missing argument <A>"]⟩ ∧
    parse 6 c7Init [str "run", str "-a", str "bogus"] true =
      .ok [(str "-a", .vbool true)]
        { c7Init with internalCommandPath := [str "run"],
                      argumentResults := [(str "-a", .vbool true)],
                      argumentScan := [str "bogus"],
                      givenArguments := [str "bogus"] }
        [str "Unrecognised flag bogus"] ∧
    scan_pattern cfgFlags 1 (str "(x)") 0 [] (stOf []) =
      .fatal (.modeError (str "Mode for pattern x is not valid")) (stOf []) :=
  ⟨by decide, by decide, by decide, by decide, by decide, rfl, by decide⟩

/-- Claim C7, counterexample: running the same tokenization-plus-matching
pass twice on the same interface does not yield identical results: the
first `parse` of `["run", "-a"]` succeeds, while the second raises
`ValueError` because the persisted `internal_command_path` is removed
from the fresh argument copy twice. -/
theorem c7_counterexample :
    parse 6 c7Init [str "run", str "-a"] true =
      .ok [(str "-a", .vbool true)] c7St1 [] ∧
    parse 6 c7St1 [str "run", str "-a"] true = .fatal .valueError :=
  ⟨rfl, rfl⟩

/-- Claim C7, amended: `parse` is not idempotent on the same interface:
each successful call appends the consumed command path to
`internal_command_path` without resetting it, so re-running the same
pass crashes with `ValueError` during command-path removal; identical
results require starting again from a freshly constructed interface. -/
theorem c7_not_idempotent :
    c7St1.internalCommandPath = c7Init.internalCommandPath ++ [str "run"] ∧
    parse 6 c7St1 [str "run", str "-a"] true = .fatal .valueError :=
  ⟨rfl, rfl⟩

/-- Claim C8, counterexample: on the pattern `{-a <A> <B>}` (bracket
nesting depth one) the scan exhausts one hundred levels of call fuel,
so the recursion is not bounded by the bracket nesting depth actually
present in the pattern. -/
theorem c8_counterexample :
    scan_pattern cfgFlags 100 selfLoopPattern 0 [] (stOf []) = .nofuel := by decide

/-- Claim C8, amended: the recursive scan does not terminate on every
pattern: on `{-a <A> <B>}` the sole tokenized element is the whole inner
pattern, each level re-scans the identical pattern string at depth plus
one, and the scan exhausts any amount of fuel. -/
theorem c8_nonterminating (cfg : Config) (fuel : Nat) (depth : Nat) (parent : Str)
    (st : ScanState) :
    scan_pattern cfg fuel selfLoopPattern depth parent st = .nofuel := by
  induction fuel generalizing depth st with
  | zero => rfl
  | succ n ih =>
    have step : scan_pattern cfg (n + 1) selfLoopPattern depth parent st =
        match runChildren (fun q s => scan_pattern cfg n q (depth + 1) parent s)
            [selfLoopPattern] st with
        | .nofuel => .nofuel
        | .fatal e st1 => .fatal e st1
        | .ok rs st1 => groupFinish '\x7b' (str "-a <A> <B>") parent rs st1 := rfl
    rw [step]
    simp [runChildren, ih]

/-- Claim C1, counterexample: for the Optional alternation `[-a|-b]` with
no branch satisfied by the input (empty token list), matching does not
succeed: both unfilled branches return the `-*` default-fill marker,
both count as filled, and the scan aborts with "Only one part ... can be
filled". -/
theorem c1_counterexample :
    scan_pattern cfgFlags 3 (str "[-a|-b]") 0 [] (stOf []) =
      .fatal (.exitError (str "Only one part of -a|-b can be filled"))
        ⟨[], [(str "-a", .vbool false), (str "-b", .vbool false)], []⟩ := by decide

/-- Claim C1, amended: with "satisfied branch" meaning a branch whose scan
returned a non-empty flag list (an unfilled Optional branch returns the
truthy `-*` marker and therefore counts as satisfied; a bare positional
branch returns the `None` response and counts as unsatisfied), the
alternation post-processing behaves as follows: two or more satisfied
branches abort with "Only one part ... can be filled" in either mode; a
Required alternation with zero satisfied branches aborts with "There
must be exactly one part ... filled"; otherwise matching succeeds and
propagates the concatenation of all branches' flags, provided no branch
returned `None` (a `None` branch makes the collection loop raise
`TypeError`); success implies the cardinality constraints. -/
theorem c1_alternation_cardinality (mode : Char) (inner : Str)
    (rs : List (Option (List Str))) (st : ScanState)
    (_hmode : mode = '\x7b' ∨ mode = '[') :
    (2 ≤ matchCount rs →
      pipeFinish mode inner rs st =
        .fatal (.exitError (str "Only one part of " ++ inner ++ str " can be filled")) st) ∧
    (mode = '\x7b' → matchCount rs = 0 →
      pipeFinish mode inner rs st =
        .fatal (.exitError (str "There must be exactly one part of " ++ inner ++ str " filled")) st) ∧
    (matchCount rs ≤ 1 → (mode = '\x7b' → matchCount rs = 1) → none ∉ rs →
      pipeFinish mode inner rs st = .ok (some ((rs.map (fun r => r.getD [])).flatten)) st) ∧
    (∀ fs st1, pipeFinish mode inner rs st = .ok fs st1 →
      matchCount rs ≤ 1 ∧ (mode = '\x7b' → matchCount rs = 1)) := by
  refine ⟨?_, ?_, ?_, ?_⟩
  · intro h2
    unfold pipeFinish
    rw [if_pos h2]
  · intro hm h0
    unfold pipeFinish
    rw [if_neg (by omega), if_pos ⟨hm, by omega⟩]
  · intro h1 hreq hnone
    unfold pipeFinish
    rw [if_neg (by omega), if_neg (by
      rintro ⟨hm, hne⟩
      exact hne (hreq hm)), collectFlags_ok rs hnone]
  · intro fs st1 h
    unfold pipeFinish at h
    by_cases h2 : 2 ≤ matchCount rs
    · rw [if_pos h2] at h
      exact absurd h (by simp)
    · rw [if_neg h2] at h
      by_cases h3 : mode = '\x7b' ∧ matchCount rs ≠ 1
      · rw [if_pos h3] at h
        exact absurd h (by simp)
      · refine ⟨by omega, fun hm => ?_⟩
        by_contra hne
        exact h3 ⟨hm, hne⟩

/-- Witness for claim C1: a Required alternation with exactly one
satisfied branch succeeds and propagates that branch's flags. -/
theorem c1_witness :
    pipeFinish '\x7b' (str "x") [some [str "-a"], some []] ⟨[], [], []⟩ =
      .ok (some [str "-a"]) ⟨[], [], []⟩ := by
  have h := (c1_alternation_cardinality '\x7b' (str "x") [some [str "-a"], some []]
    ⟨[], [], []⟩ (Or.inl rfl)).2.2.1
  exact h (by decide) (fun _ => by decide) (by decide)

/-- Claim C5, counterexample: in the Required alternation `{[-a]|-b}` with
input `["-b"]`, the Optional branch `[-a]` has no satisfied child, yet
its `-*` marker makes the enclosing alternation count that branch as
filled: the match aborts with "Only one part ... can be filled" instead
of succeeding with the single genuinely satisfied branch. -/
theorem c5_counterexample :
    scan_pattern cfgFlags 3 (str "\x7b[-a]|-b\x7d") 0 [] (stOf ["-b"]) =
      .fatal (.exitError (str "Only one part of [-a]|-b can be filled"))
        ⟨[], [(str "-a", .vbool false), (str "-b", .vbool true)], []⟩ := by decide

/-- Claim C5, amended: an Optional group whose flag is not satisfied
consumes no token and reports no error, records the registry default,
and signals the `-*` default-fill marker upward; the marker response is
truthy, so an enclosing alternation's branch count treats that branch as
filled (it does count toward the number of satisfied branches). -/
theorem c5_optional_marker (cfg : Config) (fuel : Nat) (w : Str) (depth : Nat)
    (parent : Str) (st : ScanState) (e : ParamInfo)
    (hsp : ' ' ∉ w) (hpipe : '|' ∉ w)
    (hmem : w ∉ st.givenArguments)
    (hhead : startsWith '<' w = false)
    (hfind : cfg.parameterInformation.find? (fun q => q.name = w) = some e) :
    scan_pattern cfg (fuel + 1) ('[' :: w ++ [closeOf '[']) depth parent st =
      .ok (some [str "-*"])
        { st with argumentResults := st.argumentResults ++
            [(w, if e.default.isEmpty then Value.vbool false else Value.vstr e.default)] } ∧
    truthy (some [str "-*"]) = true ∧
    (∀ rest, matchCount (some [str "-*"] :: rest) = matchCount rest + 1) := by
  refine ⟨?_, by decide, fun rest => by simp [matchCount, truthy]⟩
  rw [scan_single cfg fuel '[' w depth parent st (Or.inr rfl) hsp hpipe]
  have hcond : ¬(startsWith '<' w = true ∧ (depth = 1 ∨ depth = 0 ∧ ([w] : List Str).length = 1)) := by
    simp [hhead]
  simp only [baseCase, if_neg hmem, if_neg hcond, hfind]
  rfl

/-- Witness for claim C5: the concrete Optional group `[-a]` with `-a`
absent returns the `-*` marker and records the default `False`. -/
theorem c5_witness :
    scan_pattern cfgFlags 1 ('[' :: str "-a" ++ [closeOf '[']) 1 [] (stOf []) =
      .ok (some [str "-*"]) ⟨[], [(str "-a", .vbool false)], []⟩ := by
  have h := (c5_optional_marker cfgFlags 0 (str "-a") 1 [] (stOf []) ⟨str "-a", []⟩
    (by decide) (by decide) (by decide) (by decide) (by decide)).1
  exact h

/-- Claim C4: a positional placeholder is eligible to bind only at nesting
depth zero or one; when eligible it binds by removing the last element
of the remaining-token pool, and when the pool is empty or the popped
token starts with the flag prefix `-` a "Missing argument" error naming
the placeholder is reported (without aborting); at depth two or more the
placeholder does not touch the token pool and is routed to the registry
default lookup instead. -/
theorem c4_positional_binding (cfg : Config) (fuel : Nat) (w : Str) (depth : Nat)
    (parent : Str) (st : ScanState)
    (hhead : startsWith '<' w = true) (hsp : ' ' ∉ w) (hpipe : '|' ∉ w)
    (hmem : w ∉ st.givenArguments) :
    ((depth = 0 ∨ depth = 1) →
      scan_pattern cfg (fuel + 1) ('\x7b' :: w ++ [closeOf '\x7b']) depth parent st =
        match st.givenArguments.getLast? with
        | none =>
          .ok none { st with displayed := st.displayed ++ [str "Missing argument " ++ w] }
        | some v =>
          if startsWith '-' v then
            .ok none { st with givenArguments := st.givenArguments.dropLast,
                               displayed := st.displayed ++ [str "Missing argument " ++ w] }
          else
            .ok none { st with givenArguments := st.givenArguments.dropLast }) ∧
    (2 ≤ depth →
      scan_pattern cfg (fuel + 1) ('\x7b' :: w ++ [closeOf '\x7b']) depth parent st =
        match cfg.parameterInformation.find? (fun q => q.name = w) with
        | none => .fatal .valueError st
        | some e =>
          .ok (some [])
            { st with argumentResults := st.argumentResults ++
                [(w, if e.default.isEmpty then Value.vbool false else Value.vstr e.default)] }) := by
  constructor
  · intro hd
    rw [scan_single cfg fuel '\x7b' w depth parent st (Or.inl rfl) hsp hpipe]
    have hcond : startsWith '<' w = true ∧ (depth = 1 ∨ depth = 0 ∧ ([w] : List Str).length = 1) := by
      refine ⟨hhead, ?_⟩
      rcases hd with h | h
      · exact Or.inr ⟨h, rfl⟩
      · exact Or.inl h
    simp only [baseCase, if_neg hmem, if_pos hcond]
  · intro hd
    rw [scan_single cfg fuel '\x7b' w depth parent st (Or.inl rfl) hsp hpipe]
    have hcond : ¬(startsWith '<' w = true ∧ (depth = 1 ∨ depth = 0 ∧ ([w] : List Str).length = 1)) := by
      rintro ⟨-, h | ⟨h, -⟩⟩ <;> omega
    simp only [baseCase, if_neg hmem, if_neg hcond]
    match hf : cfg.parameterInformation.find? (fun q => q.name = w) with
    | none => rfl
    | some e => rfl

/-- Witness for claim C4: the positional `<A>` at depth one pops the last
token `x` of the pool and reports no error. -/
theorem c4_witness :
    scan_pattern cfgFlags 1 ('\x7b' :: str "<A>" ++ [closeOf '\x7b']) 1 [] (stOf ["x"]) =
      .ok none ⟨[], [], []⟩ := by
  have h := (c4_positional_binding cfgFlags 0 (str "<A>") 1 [] (stOf ["x"])
    (by decide) (by decide) (by decide) (by decide)).1 (Or.inr rfl)
  rw [h]
  decide

/-- Claim C9: when an eligible positional placeholder binds successfully
(the pool ends with a token that does not start with `-`), the popped
value is discarded: the results accumulator and the displayed messages
are unchanged, only the token disappears from the pool, the call returns
the falsy `None` response (so enclosing cardinality counting treats the
positional as not present), and at `parse` level the returned mapping
has no entry for the placeholder. -/
theorem c9_positional_discard (cfg : Config) (fuel : Nat) (w : Str) (depth : Nat)
    (parent : Str) (st : ScanState) (t : Str) (rest : List Str)
    (hhead : startsWith '<' w = true) (hsp : ' ' ∉ w) (hpipe : '|' ∉ w)
    (hmem : w ∉ st.givenArguments) (hd : depth = 0 ∨ depth = 1)
    (hargs : st.givenArguments = rest ++ [t]) (ht : startsWith '-' t = false) :
    scan_pattern cfg (fuel + 1) ('\x7b' :: w ++ [closeOf '\x7b']) depth parent st =
      .ok none { st with givenArguments := rest } ∧
    truthy none = false ∧
    parse 6 c9Iface [str "cmd", str "val"] true =
      .ok [] { c9Iface with internalCommandPath := [str "cmd"] } [] := by
  refine ⟨?_, rfl, rfl⟩
  rw [scan_single cfg fuel '\x7b' w depth parent st (Or.inl rfl) hsp hpipe]
  have hcond : startsWith '<' w = true ∧ (depth = 1 ∨ depth = 0 ∧ ([w] : List Str).length = 1) := by
    refine ⟨hhead, ?_⟩
    rcases hd with h | h
    · exact Or.inr ⟨h, rfl⟩
    · exact Or.inl h
  simp only [baseCase, if_neg hmem, if_pos hcond]
  rw [hargs]
  simp [List.getLast?_concat, List.dropLast_concat, ht]

/-- Witness for claim C9: the positional `<A>` at depth zero pops the
token `v`, records nothing, and returns the `None` response. -/
theorem c9_witness :
    scan_pattern cfgFlags 1 ('\x7b' :: str "<A>" ++ [closeOf '\x7b']) 0 [] (stOf ["v"]) =
      .ok none ⟨[], [], []⟩ ∧ truthy none = false := by
  have h := c9_positional_discard cfgFlags 0 (str "<A>") 0 [] (stOf ["v"]) (str "v") []
    (by decide) (by decide) (by decide) (by decide) (Or.inl rfl) (by decide) (by decide)
  exact ⟨h.1, h.2.1⟩
